import Mathlib

/-!
Shallow embedding of the local-bitmap subsystem of
`src/indra/newview/lllocalbitmaps.cpp` (classes `LLLocalBitmap`,
`LLLocalBitmapMgr`).

External collaborators (file system, raster decoders, texture list, object
list, agent wearables, avatar) are modelled as explicit inputs and as fields
of an explicit world state; UUIDs are modelled as natural numbers with
`0` playing the role of `LLUUID::null`.
-/

namespace LocalBitmaps

/-- `LLUUID` modelled as a natural number; `0` is `LLUUID::null`. -/
abbrev LLUUID := Nat

/-- `LLUUID::null`. -/
def LLUUID_null : LLUUID := 0

/-- The system default texture placeholder `IMG_DEFAULT`. -/
def IMG_DEFAULT : LLUUID := 1

/-- The default avatar texture placeholder `IMG_DEFAULT_AVATAR`. -/
def IMG_DEFAULT_AVATAR : LLUUID := 2

/-- `LL_LOCAL_UPDATE_RETRIES` from lllocalbitmaps.cpp. -/
def LL_LOCAL_UPDATE_RETRIES : Nat := 5

/-- Link status of a unit: `LS_ON` (active) or `LS_BROKEN`. -/
inductive LinkStatus where
  | LS_ON
  | LS_BROKEN
deriving DecidableEq, Repr

/-- The recognized image extensions (`LLLocalBitmap::EExtension`). -/
inductive ImageExtension where
  | ET_IMG_BMP
  | ET_IMG_TGA
  | ET_IMG_JPG
  | ET_IMG_PNG
deriving DecidableEq, Repr

/-- `LLWearableType::EType`: the wearable categories dispatched on by
`getTexIndex` (the remaining enum members all land in its default branch;
`WT_SHAPE` and `WT_HAIR` stand in for them). -/
inductive WearableType where
  | WT_SHAPE
  | WT_SKIN
  | WT_HAIR
  | WT_EYES
  | WT_SHIRT
  | WT_PANTS
  | WT_SHOES
  | WT_SOCKS
  | WT_JACKET
  | WT_GLOVES
  | WT_UNDERSHIRT
  | WT_UNDERPANTS
  | WT_SKIRT
  | WT_ALPHA
  | WT_TATTOO
deriving DecidableEq, Repr

/-- `LLVOAvatarDefines::EBakedTextureIndex`: the baked-texture regions. -/
inductive EBakedTextureIndex where
  | BAKED_HEAD
  | BAKED_UPPER
  | BAKED_LOWER
  | BAKED_EYES
  | BAKED_SKIRT
  | BAKED_HAIR
deriving DecidableEq, Repr

/-- `LLVOAvatarDefines::ETextureIndex`, restricted to the members used by
`LLLocalBitmap::getTexIndex`; `TEX_NUM_INDICES` is the failure sentinel. -/
inductive ETextureIndex where
  | TEX_EYES_ALPHA
  | TEX_HAIR_ALPHA
  | TEX_HEAD_ALPHA
  | TEX_LOWER_ALPHA
  | TEX_UPPER_ALPHA
  | TEX_EYES_IRIS
  | TEX_UPPER_GLOVES
  | TEX_LOWER_JACKET
  | TEX_UPPER_JACKET
  | TEX_LOWER_PANTS
  | TEX_UPPER_SHIRT
  | TEX_LOWER_SHOES
  | TEX_HEAD_BODYPAINT
  | TEX_LOWER_BODYPAINT
  | TEX_UPPER_BODYPAINT
  | TEX_SKIRT
  | TEX_LOWER_SOCKS
  | TEX_HEAD_TATTOO
  | TEX_LOWER_TATTOO
  | TEX_UPPER_TATTOO
  | TEX_LOWER_UNDERPANTS
  | TEX_UPPER_UNDERSHIRT
  | TEX_NUM_INDICES
deriving DecidableEq, Repr

/-- `LLLocalBitmap::getTexIndex(type, baked_texind)`: the static
category-by-baked-region lookup; `TEX_NUM_INDICES` on every unmapped
combination. -/
def getTexIndex (type : WearableType) (baked_texind : EBakedTextureIndex) :
    ETextureIndex :=
  match type with
  | .WT_ALPHA =>
      match baked_texind with
      | .BAKED_EYES => .TEX_EYES_ALPHA
      | .BAKED_HAIR => .TEX_HAIR_ALPHA
      | .BAKED_HEAD => .TEX_HEAD_ALPHA
      | .BAKED_LOWER => .TEX_LOWER_ALPHA
      | .BAKED_UPPER => .TEX_UPPER_ALPHA
      | _ => .TEX_NUM_INDICES
  | .WT_EYES =>
      if baked_texind = .BAKED_EYES then .TEX_EYES_IRIS else .TEX_NUM_INDICES
  | .WT_GLOVES =>
      if baked_texind = .BAKED_UPPER then .TEX_UPPER_GLOVES else .TEX_NUM_INDICES
  | .WT_JACKET =>
      if baked_texind = .BAKED_LOWER then .TEX_LOWER_JACKET
      else if baked_texind = .BAKED_UPPER then .TEX_UPPER_JACKET
      else .TEX_NUM_INDICES
  | .WT_PANTS =>
      if baked_texind = .BAKED_LOWER then .TEX_LOWER_PANTS else .TEX_NUM_INDICES
  | .WT_SHIRT =>
      if baked_texind = .BAKED_UPPER then .TEX_UPPER_SHIRT else .TEX_NUM_INDICES
  | .WT_SHOES =>
      if baked_texind = .BAKED_LOWER then .TEX_LOWER_SHOES else .TEX_NUM_INDICES
  | .WT_SKIN =>
      match baked_texind with
      | .BAKED_HEAD => .TEX_HEAD_BODYPAINT
      | .BAKED_LOWER => .TEX_LOWER_BODYPAINT
      | .BAKED_UPPER => .TEX_UPPER_BODYPAINT
      | _ => .TEX_NUM_INDICES
  | .WT_SKIRT =>
      if baked_texind = .BAKED_SKIRT then .TEX_SKIRT else .TEX_NUM_INDICES
  | .WT_SOCKS =>
      if baked_texind = .BAKED_LOWER then .TEX_LOWER_SOCKS else .TEX_NUM_INDICES
  | .WT_TATTOO =>
      match baked_texind with
      | .BAKED_HEAD => .TEX_HEAD_TATTOO
      | .BAKED_LOWER => .TEX_LOWER_TATTOO
      | .BAKED_UPPER => .TEX_UPPER_TATTOO
      | _ => .TEX_NUM_INDICES
  | .WT_UNDERPANTS =>
      if baked_texind = .BAKED_LOWER then .TEX_LOWER_UNDERPANTS else .TEX_NUM_INDICES
  | .WT_UNDERSHIRT =>
      if baked_texind = .BAKED_UPPER then .TEX_UPPER_UNDERSHIRT else .TEX_NUM_INDICES
  | _ => .TEX_NUM_INDICES

/-- All wearable categories of the embedding, for counting the lookup table. -/
def allWearableTypes : List WearableType :=
  [.WT_SHAPE, .WT_SKIN, .WT_HAIR, .WT_EYES, .WT_SHIRT, .WT_PANTS, .WT_SHOES,
   .WT_SOCKS, .WT_JACKET, .WT_GLOVES, .WT_UNDERSHIRT, .WT_UNDERPANTS,
   .WT_SKIRT, .WT_ALPHA, .WT_TATTOO]

/-- All baked-texture regions. -/
def allBakedIndices : List EBakedTextureIndex :=
  [.BAKED_HEAD, .BAKED_UPPER, .BAKED_LOWER, .BAKED_EYES, .BAKED_SKIRT,
   .BAKED_HAIR]

/-- Number of (category, baked-region) pairs that `getTexIndex` maps to a
real texture channel (anything other than the `TEX_NUM_INDICES` sentinel). -/
def texIndexPopulatedCount : Nat :=
  (allWearableTypes.map (fun t =>
    (allBakedIndices.filter
      (fun b => decide (getTexIndex t b ≠ .TEX_NUM_INDICES))).length)).sum

/-- Outcomes of the external raster decoders on the current content of the
watched file: for each decoder class its `load` and `decode` results, and
for TGA the component count `getComponents()`. -/
structure DecodeOracle where
  bmpLoad : Bool
  bmpDecode : Bool
  tgaLoad : Bool
  tgaDecode : Bool
  tgaComponents : Nat
  jpgLoad : Bool
  jpgDecode : Bool
  pngLoad : Bool
  pngDecode : Bool
deriving DecidableEq, Repr

/-- The condition of the `ET_IMG_BMP` case body of `decodeBitmap`. -/
def bmpCaseOK (o : DecodeOracle) : Bool := o.bmpLoad && o.bmpDecode

/-- The condition of the `ET_IMG_TGA` case body: load and decode succeed and
the image has 3 or 4 components. -/
def tgaCaseOK (o : DecodeOracle) : Bool :=
  (o.tgaLoad && o.tgaDecode) && (decide (o.tgaComponents = 3) || decide (o.tgaComponents = 4))

/-- The condition of the `ET_IMG_JPG` case body. -/
def jpgCaseOK (o : DecodeOracle) : Bool := o.jpgLoad && o.jpgDecode

/-- The condition of the `ET_IMG_PNG` case body. -/
def pngCaseOK (o : DecodeOracle) : Bool := o.pngLoad && o.pngDecode

/-- The sequence of case bodies of the `switch (mExtension)` in
`LLLocalBitmap::decodeBitmap` starting at the matched label.  No case body
ends in a `break`, so when a body's condition fails control falls through
into the next body. -/
def caseChain (ext : ImageExtension) (o : DecodeOracle) :
    List (ImageExtension × Bool) :=
  match ext with
  | .ET_IMG_BMP =>
      [(.ET_IMG_BMP, bmpCaseOK o), (.ET_IMG_TGA, tgaCaseOK o),
       (.ET_IMG_JPG, jpgCaseOK o), (.ET_IMG_PNG, pngCaseOK o)]
  | .ET_IMG_TGA =>
      [(.ET_IMG_TGA, tgaCaseOK o), (.ET_IMG_JPG, jpgCaseOK o),
       (.ET_IMG_PNG, pngCaseOK o)]
  | .ET_IMG_JPG =>
      [(.ET_IMG_JPG, jpgCaseOK o), (.ET_IMG_PNG, pngCaseOK o)]
  | .ET_IMG_PNG =>
      [(.ET_IMG_PNG, pngCaseOK o)]

/-- Run case bodies in order: a body whose condition holds returns `true`
from `decodeBitmap`; otherwise control falls through to the next body;
after the last body the `default` case is reached and `false` is returned.
Returns the list of decoders whose case bodies ran, and the result. -/
def runCases : List (ImageExtension × Bool) → List ImageExtension × Bool
  | [] => ([], false)
  | (e, ok) :: rest =>
      if ok then ([e], true)
      else
        let r := runCases rest
        (e :: r.1, r.2)

/-- The decoders attempted by `LLLocalBitmap::decodeBitmap` for a unit of
extension `ext`, given the decoder outcomes `o`. -/
def decodersTried (ext : ImageExtension) (o : DecodeOracle) : List ImageExtension :=
  (runCases (caseChain ext o)).1

/-- The return value of `LLLocalBitmap::decodeBitmap`. -/
def decodeBitmap (ext : ImageExtension) (o : DecodeOracle) : Bool :=
  (runCases (caseChain ext o)).2

/-- A local texture object (`LLLocalTextureObject`): its current texture id
and the baked-texture region reported by
`getTexLayer(0)->getTexLayerSet()->getBakedTexIndex()`. -/
structure LTO where
  id : LLUUID
  bakedIndex : EBakedTextureIndex
deriving DecidableEq, Repr

/-- One worn wearable instance as seen by `updateUserLayers`:
`present = false` models a null `getWearable(type, i)` result; `index`
models `gAgentWearables.getWearableIndex(wearable)`; `ltos` is
`getLocalTextureListSeq()`, a `none` entry being a null pointer. -/
structure Wearable where
  present : Bool
  index : Nat
  ltos : List (Option LTO)
deriving DecidableEq, Repr

/-- One viewer object as seen by `updateUserPrims` / `updateUserSculpts`:
`notNull` models a null `getObject(i)` result, `hasDrawable` the
`object->mDrawable` check, a face entry of `none` a null face or null face
texture, `some id` a face bound to texture `id`. -/
structure ViewerObject where
  notNull : Bool
  hasDrawable : Bool
  faces : List (Option LLUUID)
  isSculpted : Bool
  hasVolume : Bool
  sculptID : LLUUID
deriving DecidableEq, Repr

/-- The external consumer state the replacement propagator walks, plus the
manager statics it touches: `avatarWrites` logs every
`gAgentAvatarp->setLocalTexture(reg_texind, image(new_id), FALSE, index)`
call as `(reg_texind, index, new_id)`; `teUpdates` counts
`object->sendTEUpdate()` calls; `needsRebake` is
`LLLocalBitmapMgr::sNeedsRebake`; `bakeCount` counts
`gAgentAvatarp->forceBakeAllTextures` calls. -/
structure WorldState where
  objects : List ViewerObject
  wearables : List (WearableType × List Wearable)
  avatarWrites : List (ETextureIndex × Nat × LLUUID)
  needsRebake : Bool
  teUpdates : Nat
  bakeCount : Nat
deriving DecidableEq, Repr

/-- The worn instances of one category
(`gAgentWearables.getWearable(type, 0..count-1)`). -/
def wearableList (s : WorldState) (type : WearableType) : List Wearable :=
  match s.wearables.find? (fun p => decide (p.1 = type)) with
  | some p => p.2
  | none => []

/-- The inner face loop of `updateUserPrims` on one object: a face whose
bound texture equals `old_id` (and whose object has a drawable) is rebound
to `new_id` and flags the object for a network update. -/
def updateObjectFaces (old_id new_id : LLUUID) (hasDrawable : Bool) :
    List (Option LLUUID) → List (Option LLUUID) × Bool
  | [] => ([], false)
  | f :: fs =>
      let r := updateObjectFaces old_id new_id hasDrawable fs
      if hasDrawable && decide (f = some old_id) then (some new_id :: r.1, true)
      else (f :: r.1, r.2)

/-- One object's pass of `updateUserPrims`: all faces checked, and the
returned flag says whether `sendTEUpdate` fires for this object (once,
after all faces). -/
def updateUserPrimsObj (old_id new_id : LLUUID) (o : ViewerObject) :
    ViewerObject × Bool :=
  if o.notNull then
    let r := updateObjectFaces old_id new_id o.hasDrawable o.faces
    ({ o with faces := r.1 }, r.2)
  else (o, false)

/-- `LLLocalBitmap::updateUserPrims(old_id, new_id)`. -/
def updateUserPrims (old_id new_id : LLUUID) (s : WorldState) : WorldState :=
  let pairs := s.objects.map (updateUserPrimsObj old_id new_id)
  { s with
    objects := pairs.map Prod.fst,
    teUpdates := s.teUpdates + (pairs.filter Prod.snd).length }

/-- One object's pass of `updateUserSculpts`: a sculpted object with a
volume whose sculpt texture equals `old_id` gets it replaced by `new_id`. -/
def updateUserSculptsObj (old_id new_id : LLUUID) (o : ViewerObject) :
    ViewerObject :=
  if o.notNull && (o.isSculpted && o.hasVolume) && decide (o.sculptID = old_id)
  then { o with sculptID := new_id }
  else o

/-- `LLLocalBitmap::updateUserSculpts(old_id, new_id)`. -/
def updateUserSculpts (old_id new_id : LLUUID) (s : WorldState) : WorldState :=
  { s with objects := s.objects.map (updateUserSculptsObj old_id new_id) }

/-- The inner texture-object loop of `updateUserLayers` for one wearable:
walks the local texture objects; a matching one resolves its baked region
through `getTexIndex`; on the `TEX_NUM_INDICES` sentinel the whole
`updateUserLayers` call returns (second component `true` signals that
abort); otherwise the texture is applied to the avatar, the layer is marked
updated and the manager rebake flag is set. -/
def processLTOs (old_id new_id : LLUUID) (type : WearableType) (windex : Nat) :
    List (Option LTO) → WorldState → WorldState × Bool
  | [], s => (s, false)
  | none :: rest, s => processLTOs old_id new_id type windex rest s
  | some lto :: rest, s =>
      if lto.id = old_id then
        let reg_texind := getTexIndex type lto.bakedIndex
        if reg_texind = .TEX_NUM_INDICES then (s, true)
        else
          processLTOs old_id new_id type windex rest
            { s with
              avatarWrites := s.avatarWrites ++ [(reg_texind, windex, new_id)],
              needsRebake := true }
      else processLTOs old_id new_id type windex rest s

/-- The outer wearable loop of `updateUserLayers`: a null wearable returns
from the whole call, and an abort signalled by `processLTOs` does too. -/
def processWearables (old_id new_id : LLUUID) (type : WearableType) :
    List Wearable → WorldState → WorldState
  | [], s => s
  | w :: rest, s =>
      if w.present then
        let r := processLTOs old_id new_id type w.index w.ltos s
        if r.2 then r.1
        else processWearables old_id new_id type rest r.1
      else s

/-- `LLLocalBitmap::updateUserLayers(old_id, new_id, type)`. -/
def updateUserLayers (old_id new_id : LLUUID) (type : WearableType)
    (s : WorldState) : WorldState :=
  processWearables old_id new_id type (wearableList s type) s

/-- The wearable categories `replaceIDs` hands to `updateUserLayers`, in
source order. -/
def replaceIDs_layerTypes : List WearableType :=
  [.WT_ALPHA, .WT_EYES, .WT_GLOVES, .WT_JACKET, .WT_PANTS, .WT_SHIRT,
   .WT_SHOES, .WT_SKIN, .WT_SKIRT, .WT_SOCKS, .WT_TATTOO, .WT_UNDERPANTS,
   .WT_UNDERSHIRT]

/-- The sequence of `updateUserLayers` calls at the end of `replaceIDs`. -/
def layerCalls (old_id new_id : LLUUID) (types : List WearableType)
    (s : WorldState) : WorldState :=
  types.foldl (fun acc t => updateUserLayers old_id new_id t acc) s

/-- `LLLocalBitmap::replaceIDs(old_id, new_id)`: no-op guard on equal ids;
then prims, sculpts, and — with `IMG_DEFAULT` first swapped for
`IMG_DEFAULT_AVATAR` — the thirteen clothing-layer calls. -/
def replaceIDs (old_id new_id : LLUUID) (s : WorldState) : WorldState :=
  if old_id = new_id then s
  else
    let s1 := updateUserPrims old_id new_id s
    let s2 := updateUserSculpts old_id new_id s1
    let new_id2 := if new_id = IMG_DEFAULT then IMG_DEFAULT_AVATAR else new_id
    layerCalls old_id new_id2 replaceIDs_layerTypes s2

/-- The unit class `LLLocalBitmap` (the fields `updateSelf` and the manager
read or write; `mLastModified` holds the `asctime` string of the LLSD). -/
structure LLLocalBitmap where
  mFilename : String
  mShortName : String
  mValid : Bool
  mLastModified : String
  mLinkStatus : LinkStatus
  mUpdateRetries : Nat
  mTrackingID : LLUUID
  mWorldID : LLUUID
  mExtension : ImageExtension
deriving DecidableEq, Repr

/-- The external observations one `updateSelf` call makes: whether
`gDirUtilp->fileExists(mFilename)` holds, the `asctime` of the file's
current last-write time, the decoder outcomes, and the UUID
`mWorldID.generate()` would produce. -/
structure UpdateEnv where
  fileExists : Bool
  newLastModified : String
  oracle : DecodeOracle
  freshID : LLUUID
deriving DecidableEq, Repr

/-- `LLLocalBitmap::updateSelf(first_update)`: returns the `bool` result,
the unit after the call, and the world state after the call. -/
def updateSelf (b : LLLocalBitmap) (env : UpdateEnv) (first_update : Bool)
    (w : WorldState) : Bool × LLLocalBitmap × WorldState :=
  if b.mLinkStatus = .LS_ON then
    if env.fileExists = false then
      (false, { b with mLinkStatus := .LS_BROKEN }, w)
    else if b.mLastModified = env.newLastModified then
      (false, b, w)
    else if decodeBitmap b.mExtension env.oracle then
      let old_id := if first_update = false && decide (b.mWorldID ≠ LLUUID_null)
                    then b.mWorldID else LLUUID_null
      let b1 := { b with
                  mWorldID := env.freshID,
                  mLastModified := env.newLastModified }
      let w1 := if first_update = false then replaceIDs old_id b1.mWorldID w
                else w
      (true, b1, w1)
    else if b.mUpdateRetries ≠ 0 then
      (false, { b with mUpdateRetries := b.mUpdateRetries - 1 }, w)
    else
      (false, { b with mLinkStatus := .LS_BROKEN }, w)
  else
    (false, b, w)

/-- A sequence of non-first `updateSelf` calls on one unit, one per
environment: the list of returned results, the final unit, the final
world state. -/
def runRefreshes (b : LLLocalBitmap) (w : WorldState) :
    List UpdateEnv → List Bool × LLLocalBitmap × WorldState
  | [] => ([], b, w)
  | env :: envs =>
      let r := updateSelf b env false w
      let rest := runRefreshes r.2.1 r.2.2 envs
      (r.1 :: rest.1, rest.2.1, rest.2.2)

/-- The manager statics `LLLocalBitmapMgr` owns beyond those folded into
`WorldState`: the unit registry `sBitmapList` and the heartbeat timer. -/
structure MgrState where
  sBitmapList : List LLLocalBitmap
  timerRunning : Bool
deriving DecidableEq, Repr

/-- `LLLocalBitmapMgr::getWorldID(tracking_id)`: scans the whole registry,
overwriting the result on every match; `LLUUID::null` when none matches. -/
def getWorldID (units : List LLLocalBitmap) (tracking_id : LLUUID) : LLUUID :=
  units.foldl
    (fun world_id unit =>
      if unit.mTrackingID = tracking_id then unit.mWorldID else world_id)
    LLUUID_null

/-- `LLLocalBitmapMgr::getFilename(tracking_id)`: scans the whole registry,
overwriting the result on every match; the empty string when none
matches. -/
def getFilename (units : List LLLocalBitmap) (tracking_id : LLUUID) : String :=
  units.foldl
    (fun filename unit =>
      if unit.mTrackingID = tracking_id then unit.mFilename else filename)
    ""

/-- `LLLocalBitmapMgr::doRebake()`: if the rebake flag is set, one
`forceBakeAllTextures` call and the flag is cleared. -/
def doRebake (w : WorldState) : WorldState :=
  if w.needsRebake then
    { w with bakeCount := w.bakeCount + 1, needsRebake := false }
  else w

/-- The refresh loop of `doUpdates`: `updateSelf()` on every unit in
registry order, each with its own external observations. -/
def refreshAll : List (LLLocalBitmap × UpdateEnv) → WorldState →
    List LLLocalBitmap × WorldState
  | [], w => ([], w)
  | (b, env) :: rest, w =>
      let r := updateSelf b env false w
      let rr := refreshAll rest r.2.2
      (r.2.1 :: rr.1, rr.2)

/-- `LLLocalBitmapMgr::doUpdates()`: stops the timer, clears the rebake
flag, refreshes every unit in registry order, performs `doRebake`, restarts
the timer. -/
def doUpdates (m : MgrState) (envs : List UpdateEnv) (w : WorldState) :
    MgrState × WorldState :=
  let w0 := { w with needsRebake := false }
  let p := refreshAll (m.sBitmapList.zip envs) w0
  let w2 := doRebake p.2
  ({ sBitmapList := p.1, timerRunning := true }, w2)

/-!  Helper lemmas: how each pass fragment relates the world state before
and after it.  `LayerStep v s s'` captures a fragment of the clothing-layer
stage (objects untouched, avatar writes only appended with value `v`, the
rebake flag set exactly when a write happened); `RebakeWrites s s'`
captures any fragment of an update pass (writes only appended, the rebake
flag set exactly when a write happened, no bake performed). -/

/-- State relation satisfied by every clothing-layer stage fragment. -/
def LayerStep (v : LLUUID) (s s' : WorldState) : Prop :=
  s'.objects = s.objects ∧
  s'.wearables = s.wearables ∧
  s'.teUpdates = s.teUpdates ∧
  s'.bakeCount = s.bakeCount ∧
  s.avatarWrites.length ≤ s'.avatarWrites.length ∧
  (∀ x ∈ s'.avatarWrites, x ∈ s.avatarWrites ∨ x.2.2 = v) ∧
  (s'.needsRebake = true ↔
    (s.needsRebake = true ∨ s.avatarWrites.length < s'.avatarWrites.length))

theorem layerStep_refl (v : LLUUID) (s : WorldState) : LayerStep v s s :=
  ⟨rfl, rfl, rfl, rfl, le_refl _, fun x hx => Or.inl hx, by simp⟩

theorem layerStep_trans {v : LLUUID} {s s' s'' : WorldState}
    (h1 : LayerStep v s s') (h2 : LayerStep v s' s'') : LayerStep v s s'' := by
  obtain ⟨o1, w1, t1, b1, l1, m1, r1⟩ := h1
  obtain ⟨o2, w2, t2, b2, l2, m2, r2⟩ := h2
  refine ⟨o2.trans o1, w2.trans w1, t2.trans t1, b2.trans b1, le_trans l1 l2,
    ?_, ?_⟩
  · intro x hx
    rcases m2 x hx with h | h
    · exact m1 x h
    · exact Or.inr h
  · rw [r2, r1, or_assoc]
    have harith : (s.avatarWrites.length < s'.avatarWrites.length ∨
        s'.avatarWrites.length < s''.avatarWrites.length) ↔
        s.avatarWrites.length < s''.avatarWrites.length := by omega
    rw [harith]

theorem processLTOs_layerStep (old_id v : LLUUID) (type : WearableType)
    (windex : Nat) :
    ∀ (ltos : List (Option LTO)) (s : WorldState),
      LayerStep v s (processLTOs old_id v type windex ltos s).1 := by
  intro ltos
  induction ltos with
  | nil => intro s; exact layerStep_refl v s
  | cons hd tl ih =>
      intro s
      match hd with
      | none => exact ih s
      | some lto =>
          by_cases hid : lto.id = old_id
          · by_cases hreg : getTexIndex type lto.bakedIndex = .TEX_NUM_INDICES
            · simp only [processLTOs, if_pos hid, if_pos hreg]
              exact layerStep_refl v s
            · simp only [processLTOs, if_pos hid, if_neg hreg]
              refine layerStep_trans ?_ (ih _)
              refine ⟨rfl, rfl, rfl, rfl, by simp, ?_, by simp⟩
              intro x hx
              rcases List.mem_append.mp hx with h | h
              · exact Or.inl h
              · right
                have : x = (getTexIndex type lto.bakedIndex, windex, v) := by
                  simpa using h
                rw [this]
          · simp only [processLTOs, if_neg hid]
            exact ih s

theorem processWearables_layerStep (old_id v : LLUUID) (type : WearableType) :
    ∀ (ws : List Wearable) (s : WorldState),
      LayerStep v s (processWearables old_id v type ws s) := by
  intro ws
  induction ws with
  | nil => intro s; exact layerStep_refl v s
  | cons w tl ih =>
      intro s
      by_cases hp : w.present
      · simp only [processWearables, if_pos hp]
        by_cases hab : (processLTOs old_id v type w.index w.ltos s).2
        · simp only [if_pos hab]
          exact processLTOs_layerStep old_id v type w.index w.ltos s
        · simp only [if_neg hab]
          exact layerStep_trans
            (processLTOs_layerStep old_id v type w.index w.ltos s) (ih _)
      · simp only [processWearables, Bool.not_eq_true] at hp
        simp only [processWearables, hp, Bool.false_eq_true, if_false]
        exact layerStep_refl v s

theorem updateUserLayers_layerStep (old_id v : LLUUID) (type : WearableType)
    (s : WorldState) : LayerStep v s (updateUserLayers old_id v type s) :=
  processWearables_layerStep old_id v type (wearableList s type) s

theorem layerCalls_layerStep (old_id v : LLUUID) :
    ∀ (types : List WearableType) (s : WorldState),
      LayerStep v s (layerCalls old_id v types s) := by
  intro types
  induction types with
  | nil => intro s; exact layerStep_refl v s
  | cons t tl ih =>
      intro s
      have hstep : layerCalls old_id v (t :: tl) s =
          layerCalls old_id v tl (updateUserLayers old_id v t s) := rfl
      rw [hstep]
      exact layerStep_trans (updateUserLayers_layerStep old_id v t s) (ih _)

/-- State relation satisfied by every update-pass fragment. -/
def RebakeWrites (s s' : WorldState) : Prop :=
  s.avatarWrites.length ≤ s'.avatarWrites.length ∧
  (s'.needsRebake = true ↔
    (s.needsRebake = true ∨ s.avatarWrites.length < s'.avatarWrites.length)) ∧
  s'.bakeCount = s.bakeCount

theorem rebakeWrites_refl (s : WorldState) : RebakeWrites s s :=
  ⟨le_refl _, by simp, rfl⟩

theorem rebakeWrites_trans {s s' s'' : WorldState}
    (h1 : RebakeWrites s s') (h2 : RebakeWrites s' s'') : RebakeWrites s s'' := by
  obtain ⟨l1, r1, b1⟩ := h1
  obtain ⟨l2, r2, b2⟩ := h2
  refine ⟨le_trans l1 l2, ?_, b2.trans b1⟩
  rw [r2, r1, or_assoc]
  have harith : (s.avatarWrites.length < s'.avatarWrites.length ∨
      s'.avatarWrites.length < s''.avatarWrites.length) ↔
      s.avatarWrites.length < s''.avatarWrites.length := by omega
  rw [harith]

theorem rebakeWrites_of_eq {s s' : WorldState}
    (h1 : s'.avatarWrites = s.avatarWrites)
    (h2 : s'.needsRebake = s.needsRebake)
    (h3 : s'.bakeCount = s.bakeCount) : RebakeWrites s s' := by
  refine ⟨le_of_eq (by rw [h1]), ?_, h3⟩
  rw [h1, h2]
  simp

theorem rebakeWrites_of_layerStep {v : LLUUID} {s s' : WorldState}
    (h : LayerStep v s s') : RebakeWrites s s' :=
  ⟨h.2.2.2.2.1, h.2.2.2.2.2.2, h.2.2.2.1⟩

theorem updateUserPrims_fields (old_id new_id : LLUUID) (s : WorldState) :
    (updateUserPrims old_id new_id s).avatarWrites = s.avatarWrites ∧
    (updateUserPrims old_id new_id s).needsRebake = s.needsRebake ∧
    (updateUserPrims old_id new_id s).bakeCount = s.bakeCount ∧
    (updateUserPrims old_id new_id s).wearables = s.wearables := by
  simp [updateUserPrims]

theorem updateUserSculpts_fields (old_id new_id : LLUUID) (s : WorldState) :
    (updateUserSculpts old_id new_id s).avatarWrites = s.avatarWrites ∧
    (updateUserSculpts old_id new_id s).needsRebake = s.needsRebake ∧
    (updateUserSculpts old_id new_id s).bakeCount = s.bakeCount ∧
    (updateUserSculpts old_id new_id s).wearables = s.wearables := by
  simp [updateUserSculpts]

theorem replaceIDs_rebakeWrites (old_id new_id : LLUUID) (s : WorldState) :
    RebakeWrites s (replaceIDs old_id new_id s) := by
  by_cases h : old_id = new_id
  · simp only [replaceIDs, if_pos h]
    exact rebakeWrites_refl s
  · simp only [replaceIDs, if_neg h]
    refine rebakeWrites_trans
      (rebakeWrites_of_eq (updateUserPrims_fields old_id new_id s).1
        (updateUserPrims_fields old_id new_id s).2.1
        (updateUserPrims_fields old_id new_id s).2.2.1) ?_
    refine rebakeWrites_trans
      (rebakeWrites_of_eq (updateUserSculpts_fields old_id new_id _).1
        (updateUserSculpts_fields old_id new_id _).2.1
        (updateUserSculpts_fields old_id new_id _).2.2.1) ?_
    exact rebakeWrites_of_layerStep (layerCalls_layerStep _ _ _ _)

theorem updateSelf_rebakeWrites (b : LLLocalBitmap) (env : UpdateEnv)
    (first_update : Bool) (w : WorldState) :
    RebakeWrites w (updateSelf b env first_update w).2.2 := by
  unfold updateSelf
  split
  · split
    · exact rebakeWrites_refl w
    · split
      · exact rebakeWrites_refl w
      · split
        · simp only
          split
          · exact replaceIDs_rebakeWrites _ _ w
          · exact rebakeWrites_refl w
        · split
          · exact rebakeWrites_refl w
          · exact rebakeWrites_refl w
  · exact rebakeWrites_refl w

theorem refreshAll_rebakeWrites :
    ∀ (l : List (LLLocalBitmap × UpdateEnv)) (w : WorldState),
      RebakeWrites w (refreshAll l w).2 := by
  intro l
  induction l with
  | nil => intro w; exact rebakeWrites_refl w
  | cons p tl ih =>
      intro w
      exact rebakeWrites_trans
        (updateSelf_rebakeWrites p.1 p.2 false w) (ih _)

/-! Claim theorems. -/

theorem updateSelf_broken {b : LLLocalBitmap} (env : UpdateEnv)
    (first_update : Bool) (w : WorldState) (h : b.mLinkStatus = .LS_BROKEN) :
    updateSelf b env first_update w = (false, b, w) := by
  have hne : ¬ b.mLinkStatus = .LS_ON := by rw [h]; intro hc; cases hc
  simp [updateSelf, hne]

/-- C1: a unit whose `mLinkStatus` is `LS_BROKEN` is inert: any sequence of
further `updateSelf` calls returns `false` every time and leaves the unit —
in particular `mWorldID`, `mLastModified`, `mUpdateRetries` and
`mLinkStatus` — and the world state unchanged, so a broken unit never again
produces a new published texture identity. -/
theorem broken_unit_refreshes_noop (b : LLLocalBitmap) (w : WorldState)
    (envs : List UpdateEnv) (h : b.mLinkStatus = .LS_BROKEN) :
    (runRefreshes b w envs).2.1 = b ∧ (runRefreshes b w envs).2.2 = w ∧
    ∀ r ∈ (runRefreshes b w envs).1, r = false := by
  induction envs with
  | nil => exact ⟨rfl, rfl, by intro r hr; cases hr⟩
  | cons env tl ih =>
      obtain ⟨h1, h2, h3⟩ := ih
      have hstep : updateSelf b env false w = (false, b, w) :=
        updateSelf_broken env false w h
      refine ⟨?_, ?_, ?_⟩
      · show (runRefreshes (updateSelf b env false w).2.1
            (updateSelf b env false w).2.2 tl).2.1 = b
        rw [hstep]
        exact h1
      · show (runRefreshes (updateSelf b env false w).2.1
            (updateSelf b env false w).2.2 tl).2.2 = w
        rw [hstep]
        exact h2
      · intro r hr
        show r = false
        have : r ∈ (updateSelf b env false w).1 ::
            (runRefreshes (updateSelf b env false w).2.1
              (updateSelf b env false w).2.2 tl).1 := hr
        rw [hstep] at this
        rcases List.mem_cons.mp this with h | h
        · exact h
        · exact h3 r h

/-- A sample broken unit used to instantiate the C1 theorem. -/
def brokenUnit : LLLocalBitmap :=
  { mFilename := "textures/a.bmp", mShortName := "a", mValid := true,
    mLastModified := "Mon Jun  6 10:00:00 2011", mLinkStatus := .LS_BROKEN,
    mUpdateRetries := 3, mTrackingID := 10, mWorldID := 11,
    mExtension := .ET_IMG_BMP }

/-- A world state with no objects and no wearables. -/
def emptyWorld : WorldState :=
  { objects := [], wearables := [], avatarWrites := [], needsRebake := false,
    teUpdates := 0, bakeCount := 0 }

/-- An observation set under which an active unit would decode fine. -/
def goodEnv : UpdateEnv :=
  { fileExists := true, newLastModified := "Tue Jun  7 10:00:00 2011",
    oracle := { bmpLoad := true, bmpDecode := true, tgaLoad := true,
                tgaDecode := true, tgaComponents := 3, jpgLoad := true,
                jpgDecode := true, pngLoad := true, pngDecode := true },
    freshID := 42 }

/-- C1 witness: the theorem instantiated at a concrete broken unit and a
two-call refresh sequence. -/
theorem broken_unit_refreshes_noop_witness :
    (runRefreshes brokenUnit emptyWorld [goodEnv, goodEnv]).2.1 = brokenUnit ∧
    (runRefreshes brokenUnit emptyWorld [goodEnv, goodEnv]).2.2 = emptyWorld ∧
    ∀ r ∈ (runRefreshes brokenUnit emptyWorld [goodEnv, goodEnv]).1,
      r = false :=
  broken_unit_refreshes_noop brokenUnit emptyWorld [goodEnv, goodEnv] rfl

/-- C2: a decode failure on an active unit (file present, timestamp
changed, `decodeBitmap` false) decrements `mUpdateRetries` by exactly one
while the counter is positive — leaving `mLinkStatus` at `LS_ON` — and
transitions the unit to `LS_BROKEN` exactly when the counter is already
zero. -/
theorem decode_failure_retry_countdown (b : LLLocalBitmap) (env : UpdateEnv)
    (first_update : Bool) (w : WorldState)
    (h1 : b.mLinkStatus = .LS_ON) (h2 : env.fileExists = true)
    (h3 : b.mLastModified ≠ env.newLastModified)
    (h4 : decodeBitmap b.mExtension env.oracle = false) :
    (0 < b.mUpdateRetries →
      updateSelf b env first_update w =
        (false, { b with mUpdateRetries := b.mUpdateRetries - 1 }, w)) ∧
    (b.mUpdateRetries = 0 →
      updateSelf b env first_update w =
        (false, { b with mLinkStatus := .LS_BROKEN }, w)) := by
  constructor
  · intro hpos
    have hne : b.mUpdateRetries ≠ 0 := Nat.pos_iff_ne_zero.mp hpos
    simp [updateSelf, h1, h2, h3, h4, hne]
  · intro hzero
    simp [updateSelf, h1, h2, h3, h4, hzero]

/-- A sample active unit with a positive retry budget. -/
def activeUnit : LLLocalBitmap :=
  { mFilename := "textures/a.bmp", mShortName := "a", mValid := true,
    mLastModified := "Mon Jun  6 10:00:00 2011", mLinkStatus := .LS_ON,
    mUpdateRetries := 5, mTrackingID := 10, mWorldID := 11,
    mExtension := .ET_IMG_BMP }

/-- An observation set under which every decoder fails. -/
def allFailEnv : UpdateEnv :=
  { fileExists := true, newLastModified := "Tue Jun  7 10:00:00 2011",
    oracle := { bmpLoad := false, bmpDecode := false, tgaLoad := false,
                tgaDecode := false, tgaComponents := 0, jpgLoad := false,
                jpgDecode := false, pngLoad := false, pngDecode := false },
    freshID := 42 }

/-- C2 witness: one decode failure at retries 5 yields retries 4 and the
unit stays active. -/
theorem decode_failure_retry_countdown_witness :
    updateSelf activeUnit allFailEnv false emptyWorld =
      (false, { activeUnit with mUpdateRetries := activeUnit.mUpdateRetries - 1 },
        emptyWorld) :=
  (decode_failure_retry_countdown activeUnit allFailEnv false emptyWorld rfl rfl
    (by decide) (by decide)).1 (by decide)

/-- C9: `updateSelf` on an active unit whose file no longer exists returns
`false` and transitions the unit to `LS_BROKEN`, leaving `mUpdateRetries`,
`mWorldID`, `mLastModified` (and the world state) unchanged. -/
theorem missing_file_breaks_link (b : LLLocalBitmap) (env : UpdateEnv)
    (first_update : Bool) (w : WorldState)
    (h1 : b.mLinkStatus = .LS_ON) (h2 : env.fileExists = false) :
    updateSelf b env first_update w =
      (false, { b with mLinkStatus := .LS_BROKEN }, w) := by
  simp [updateSelf, h1, h2]

/-- An observation set for a vanished file. -/
def goneEnv : UpdateEnv :=
  { fileExists := false, newLastModified := "Tue Jun  7 10:00:00 2011",
    oracle := { bmpLoad := false, bmpDecode := false, tgaLoad := false,
                tgaDecode := false, tgaComponents := 0, jpgLoad := false,
                jpgDecode := false, pngLoad := false, pngDecode := false },
    freshID := 42 }

/-- C9 witness: the theorem instantiated at the sample active unit. -/
theorem missing_file_breaks_link_witness :
    updateSelf activeUnit goneEnv false emptyWorld =
      (false, { activeUnit with mLinkStatus := .LS_BROKEN }, emptyWorld) :=
  missing_file_breaks_link activeUnit goneEnv false emptyWorld rfl rfl

/-- C8: `replaceIDs(X, X)` is a silent no-op: the world state — faces,
sculpt parameters, clothing-layer writes, network-update count, rebake
flag — is returned unchanged. -/
theorem replaceIDs_self_noop (X : LLUUID) (s : WorldState) :
    replaceIDs X X s = s := by
  simp [replaceIDs]

/-- Decoder outcomes for a file whose BMP load fails while the TGA decoder
would succeed on it. -/
def bmpFailOracle : DecodeOracle :=
  { bmpLoad := false, bmpDecode := false, tgaLoad := true, tgaDecode := true,
    tgaComponents := 3, jpgLoad := true, jpgDecode := true, pngLoad := true,
    pngDecode := true }

/-- C3: the switch in `decodeBitmap` has no `break` before the next case
label, so for a unit declared `ET_IMG_BMP` whose BMP load fails, control
falls through into the `ET_IMG_TGA` case body: the TGA decoder is
attempted as well — contradicting dispatch purely by declared format — and
`decodeBitmap` even returns `true` through it. -/
theorem decodeBitmap_fallthrough :
    decodersTried .ET_IMG_BMP bmpFailOracle =
      [.ET_IMG_BMP, .ET_IMG_TGA] ∧
    decodeBitmap .ET_IMG_BMP bmpFailOracle = true := by
  decide

/-- C5 counterexample: `replaceIDs` hands `updateUserLayers` 13 wearable
categories, not 12, and the `getTexIndex` table resolves 22
(category, baked-region) pairs to a real channel, not 27; the claimed
counts are both false. -/
theorem layer_table_counts_cex :
    ¬ (replaceIDs_layerTypes.length = 12 ∧ texIndexPopulatedCount = 27) := by
  decide

/-- C5 amended: the clothing-layer step of `replaceIDs` iterates exactly 13
wearable categories, and `getTexIndex` contains exactly 22 populated
mappings. -/
theorem layer_table_counts :
    replaceIDs_layerTypes.length = 13 ∧ texIndexPopulatedCount = 22 := by
  decide

/-- A world state for C6: the first worn WT_EYES instance carries an
unmapped matching slot (BAKED_HEAD) followed by a mapped matching slot
(BAKED_EYES), and a second worn instance carries another mapped matching
slot. -/
def c6World : WorldState :=
  { objects := [],
    wearables :=
      [(.WT_EYES,
        [{ present := true, index := 0,
           ltos := [some { id := 5, bakedIndex := .BAKED_HEAD },
                    some { id := 5, bakedIndex := .BAKED_EYES }] },
         { present := true, index := 1,
           ltos := [some { id := 5, bakedIndex := .BAKED_EYES }] }])],
    avatarWrites := [], needsRebake := false, teUpdates := 0, bakeCount := 0 }

/-- C6 counterexample: in `c6World` the first matching slot of the first
worn instance has an unmapped (category, baked-region) combination; were
only that slot skipped, the following mapped slot (and the second worn
instance) would each receive a texture — but the code applies no texture at
all and never sets the rebake flag, because the unmapped combination makes
`updateUserLayers` return. -/
theorem unmapped_slot_not_skipped_cex :
    (updateUserLayers 5 7 .WT_EYES c6World).avatarWrites = [] ∧
    (updateUserLayers 5 7 .WT_EYES c6World).needsRebake = false ∧
    getTexIndex .WT_EYES .BAKED_EYES ≠ .TEX_NUM_INDICES := by
  decide

/-- C6 amended: a matching slot whose (category, baked-region) combination
is unmapped makes the whole `updateUserLayers` call return: the inner loop
aborts with the state unchanged, and the outer loop over the remaining
worn instances of that category is abandoned too (categories later in
`replaceIDs` order are separate calls and still run). -/
theorem unmapped_slot_aborts_category (old_id new_id : LLUUID)
    (type : WearableType) (windex : Nat) (lto : LTO)
    (rest : List (Option LTO)) (w : Wearable) (ws : List Wearable)
    (s : WorldState)
    (h1 : lto.id = old_id)
    (h2 : getTexIndex type lto.bakedIndex = .TEX_NUM_INDICES)
    (h3 : w.present = true) (h4 : w.ltos = some lto :: rest)
    (h5 : w.index = windex) :
    processLTOs old_id new_id type windex (some lto :: rest) s = (s, true) ∧
    processWearables old_id new_id type (w :: ws) s = s := by
  have habort :
      processLTOs old_id new_id type windex (some lto :: rest) s =
        (s, true) := by
    simp [processLTOs, h1, h2]
  refine ⟨habort, ?_⟩
  simp only [processWearables, if_pos h3, h4, h5, habort, if_pos]

/-- C6 witness: the amended theorem instantiated in `c6World`. -/
theorem unmapped_slot_aborts_category_witness :
    processLTOs 5 7 .WT_EYES 0
        [some { id := 5, bakedIndex := .BAKED_HEAD },
         some { id := 5, bakedIndex := .BAKED_EYES }] c6World =
      (c6World, true) ∧
    processWearables 5 7 .WT_EYES (wearableList c6World .WT_EYES) c6World =
      c6World :=
  unmapped_slot_aborts_category 5 7 .WT_EYES 0
    { id := 5, bakedIndex := .BAKED_HEAD }
    [some { id := 5, bakedIndex := .BAKED_EYES }]
    { present := true, index := 0,
      ltos := [some { id := 5, bakedIndex := .BAKED_HEAD },
               some { id := 5, bakedIndex := .BAKED_EYES }] }
    [{ present := true, index := 1,
       ltos := [some { id := 5, bakedIndex := .BAKED_EYES }] }]
    c6World rfl rfl rfl rfl rfl

theorem scan_no_match {β : Type} (f : LLLocalBitmap → β) (tracking_id : LLUUID) :
    ∀ (units : List LLLocalBitmap),
      (∀ u ∈ units, u.mTrackingID ≠ tracking_id) →
      ∀ (a : β),
        units.foldl
          (fun acc unit =>
            if unit.mTrackingID = tracking_id then f unit else acc) a = a := by
  intro units
  induction units with
  | nil => intro _ a; rfl
  | cons u tl ih =>
      intro h a
      have hu : u.mTrackingID ≠ tracking_id := h u (List.mem_cons_self u tl)
      have htl : ∀ v ∈ tl, v.mTrackingID ≠ tracking_id :=
        fun v hv => h v (List.mem_cons_of_mem u hv)
      simp only [List.foldl_cons, if_neg hu]
      exact ih htl a

theorem scan_last_match {β : Type} (f : LLLocalBitmap → β) (tracking_id : LLUUID)
    (pre post : List LLLocalBitmap) (u : LLLocalBitmap)
    (hu : u.mTrackingID = tracking_id)
    (hpost : ∀ v ∈ post, v.mTrackingID ≠ tracking_id) (a : β) :
    (pre ++ u :: post).foldl
      (fun acc unit =>
        if unit.mTrackingID = tracking_id then f unit else acc) a = f u := by
  rw [List.foldl_append, List.foldl_cons, if_pos hu]
  exact scan_no_match f tracking_id post hpost (f u)

/-- C10: `getWorldID` and `getFilename` scan the whole registry; with no
matching unit they return `LLUUID::null` and the empty string, and with
several matching units the value returned is that of the last match in
registry order. -/
theorem registry_lookup_last_match (units : List LLLocalBitmap)
    (tracking_id : LLUUID) :
    ((∀ u ∈ units, u.mTrackingID ≠ tracking_id) →
      getWorldID units tracking_id = LLUUID_null ∧
      getFilename units tracking_id = "") ∧
    (∀ (pre post : List LLLocalBitmap) (u : LLLocalBitmap),
      units = pre ++ u :: post → u.mTrackingID = tracking_id →
      (∀ v ∈ post, v.mTrackingID ≠ tracking_id) →
      getWorldID units tracking_id = u.mWorldID ∧
      getFilename units tracking_id = u.mFilename) := by
  constructor
  · intro h
    exact ⟨scan_no_match (fun u => u.mWorldID) tracking_id units h LLUUID_null,
      scan_no_match (fun u => u.mFilename) tracking_id units h ""⟩
  · intro pre post u hsplit hu hpost
    rw [hsplit]
    exact ⟨scan_last_match (fun u => u.mWorldID) tracking_id pre post u hu hpost
        LLUUID_null,
      scan_last_match (fun u => u.mFilename) tracking_id pre post u hu hpost ""⟩

/-- A second unit sharing `brokenUnit`'s tracking identity. -/
def dupUnit : LLLocalBitmap :=
  { mFilename := "textures/b.tga", mShortName := "b", mValid := true,
    mLastModified := "Mon Jun  6 11:00:00 2011", mLinkStatus := .LS_ON,
    mUpdateRetries := 5, mTrackingID := 10, mWorldID := 21,
    mExtension := .ET_IMG_TGA }

/-- A unit with a tracking identity matched by no query below. -/
def otherUnit : LLLocalBitmap :=
  { mFilename := "textures/c.png", mShortName := "c", mValid := true,
    mLastModified := "Mon Jun  6 12:00:00 2011", mLinkStatus := .LS_ON,
    mUpdateRetries := 5, mTrackingID := 30, mWorldID := 31,
    mExtension := .ET_IMG_PNG }

/-- C10 witness: on a registry where tracking id 10 occurs twice, the last
match (`dupUnit`) wins, and an unmatched id yields the null/empty
sentinels. -/
theorem registry_lookup_last_match_witness :
    (getWorldID [brokenUnit, dupUnit, otherUnit] 10 = dupUnit.mWorldID ∧
      getFilename [brokenUnit, dupUnit, otherUnit] 10 = dupUnit.mFilename) ∧
    (getWorldID [brokenUnit, dupUnit, otherUnit] 99 = LLUUID_null ∧
      getFilename [brokenUnit, dupUnit, otherUnit] 99 = "") :=
  ⟨(registry_lookup_last_match [brokenUnit, dupUnit, otherUnit] 10).2
      [brokenUnit] [otherUnit] dupUnit rfl rfl (by decide),
    (registry_lookup_last_match [brokenUnit, dupUnit, otherUnit] 99).1
      (by decide)⟩

theorem doRebake_false (w : WorldState) (h : w.needsRebake = false) :
    doRebake w = w := by
  simp [doRebake, h]

theorem doRebake_true (w : WorldState) (h : w.needsRebake = true) :
    doRebake w =
      { w with bakeCount := w.bakeCount + 1, needsRebake := false } := by
  simp [doRebake, h]

/-- C4: over one `doUpdates` pass, exactly one `forceBakeAllTextures` call
happens when the refresh loop set the rebake flag and none otherwise; the
flag is false entering the loop (cleared at the start of the pass), it is
set during the loop exactly when some unit's refresh appended a
clothing-layer write, and it is false again after the pass. -/
theorem doUpdates_single_rebake (m : MgrState) (envs : List UpdateEnv)
    (w : WorldState) :
    ((doUpdates m envs w).2.bakeCount = w.bakeCount +
      (if (refreshAll (m.sBitmapList.zip envs)
            { w with needsRebake := false }).2.needsRebake = true
       then 1 else 0)) ∧
    (doUpdates m envs w).2.needsRebake = false ∧
    ((refreshAll (m.sBitmapList.zip envs)
        { w with needsRebake := false }).2.needsRebake = true ↔
      w.avatarWrites.length <
        (refreshAll (m.sBitmapList.zip envs)
          { w with needsRebake := false }).2.avatarWrites.length) := by
  obtain ⟨hlen, hiff, hbake⟩ :=
    refreshAll_rebakeWrites (m.sBitmapList.zip envs)
      { w with needsRebake := false }
  have hdu : (doUpdates m envs w).2 =
      doRebake (refreshAll (m.sBitmapList.zip envs)
        { w with needsRebake := false }).2 := rfl
  have hiff2 : (refreshAll (m.sBitmapList.zip envs)
      { w with needsRebake := false }).2.needsRebake = true ↔
      w.avatarWrites.length <
        (refreshAll (m.sBitmapList.zip envs)
          { w with needsRebake := false }).2.avatarWrites.length := by
    rw [hiff]
    simp
  refine ⟨?_, ?_, hiff2⟩
  · rw [hdu]
    cases hrb : (refreshAll (m.sBitmapList.zip envs)
        { w with needsRebake := false }).2.needsRebake with
    | false =>
        rw [doRebake_false _ hrb, hbake]
        simp
    | true =>
        rw [doRebake_true _ hrb]
        simp [hbake]
  · rw [hdu]
    cases hrb : (refreshAll (m.sBitmapList.zip envs)
        { w with needsRebake := false }).2.needsRebake with
    | false => rw [doRebake_false _ hrb]; exact hrb
    | true => rw [doRebake_true _ hrb]

theorem updateObjectFaces_hit (old_id new_id : LLUUID) :
    ∀ (fs : List (Option LLUUID)) (j : Nat), fs[j]? = some (some old_id) →
      (updateObjectFaces old_id new_id true fs).1[j]? =
        some (some new_id) := by
  intro fs
  induction fs with
  | nil => intro j h; simp at h
  | cons f tl ih =>
      intro j h
      cases j with
      | zero =>
          have hf : f = some old_id := by simpa using h
          simp [updateObjectFaces, hf]
      | succ j =>
          have htl : tl[j]? = some (some old_id) := by simpa using h
          simp only [updateObjectFaces]
          split
          · simpa using ih j htl
          · simpa using ih j htl

theorem updateUserPrimsObj_preserves (old_id new_id : LLUUID)
    (o : ViewerObject) :
    (updateUserPrimsObj old_id new_id o).1.notNull = o.notNull ∧
    (updateUserPrimsObj old_id new_id o).1.isSculpted = o.isSculpted ∧
    (updateUserPrimsObj old_id new_id o).1.hasVolume = o.hasVolume ∧
    (updateUserPrimsObj old_id new_id o).1.sculptID = o.sculptID := by
  unfold updateUserPrimsObj
  split <;> simp

theorem updateUserPrimsObj_faces_hit (old_id new_id : LLUUID)
    (o : ViewerObject) (j : Nat) (h1 : o.notNull = true)
    (h2 : o.hasDrawable = true) (h3 : o.faces[j]? = some (some old_id)) :
    (updateUserPrimsObj old_id new_id o).1.faces[j]? = some (some new_id) := by
  unfold updateUserPrimsObj
  rw [if_pos h1, h2]
  simpa using updateObjectFaces_hit old_id new_id o.faces j h3

theorem updateUserSculptsObj_preserves (old_id new_id : LLUUID)
    (o : ViewerObject) :
    (updateUserSculptsObj old_id new_id o).faces = o.faces := by
  unfold updateUserSculptsObj
  split <;> simp

theorem updateUserSculptsObj_hit (old_id new_id : LLUUID) (o : ViewerObject)
    (h1 : o.notNull = true) (h2 : o.isSculpted = true)
    (h3 : o.hasVolume = true) (h4 : o.sculptID = old_id) :
    (updateUserSculptsObj old_id new_id o).sculptID = new_id := by
  simp [updateUserSculptsObj, h1, h2, h3, h4]

theorem updateUserPrims_objects (old_id new_id : LLUUID) (s : WorldState) :
    (updateUserPrims old_id new_id s).objects =
      s.objects.map (fun o => (updateUserPrimsObj old_id new_id o).1) := by
  simp [updateUserPrims]

theorem updateUserSculpts_objects (old_id new_id : LLUUID) (s : WorldState) :
    (updateUserSculpts old_id new_id s).objects =
      s.objects.map (updateUserSculptsObj old_id new_id) := rfl

theorem replaceIDs_to_default_unfold (old_id : LLUUID)
    (h : old_id ≠ IMG_DEFAULT) (s : WorldState) :
    replaceIDs old_id IMG_DEFAULT s =
      layerCalls old_id IMG_DEFAULT_AVATAR replaceIDs_layerTypes
        (updateUserSculpts old_id IMG_DEFAULT
          (updateUserPrims old_id IMG_DEFAULT s)) := by
  simp [replaceIDs, h]

/-- C7: when `replaceIDs` is asked to retarget onto the system default
placeholder, the substitution to the default-avatar placeholder applies
only to the clothing-layer step: an existing world-object face bound to
`old_id` ends bound to `IMG_DEFAULT` itself, a sculpted shape referencing
`old_id` ends referencing `IMG_DEFAULT` itself, while every clothing-layer
write performed by the call carries `IMG_DEFAULT_AVATAR` — which is a
different identity than `IMG_DEFAULT`. -/
theorem replaceIDs_default_substitution (old_id : LLUUID) (s : WorldState) :
    (∀ (i : Nat) (o : ViewerObject) (j : Nat), s.objects[i]? = some o →
      o.notNull = true → o.hasDrawable = true →
      o.faces[j]? = some (some old_id) →
      ∃ o', (replaceIDs old_id IMG_DEFAULT s).objects[i]? = some o' ∧
        o'.faces[j]? = some (some IMG_DEFAULT)) ∧
    (∀ (i : Nat) (o : ViewerObject), s.objects[i]? = some o →
      o.notNull = true → o.isSculpted = true → o.hasVolume = true →
      o.sculptID = old_id →
      ∃ o', (replaceIDs old_id IMG_DEFAULT s).objects[i]? = some o' ∧
        o'.sculptID = IMG_DEFAULT) ∧
    (∀ x ∈ (replaceIDs old_id IMG_DEFAULT s).avatarWrites,
      x ∈ s.avatarWrites ∨ x.2.2 = IMG_DEFAULT_AVATAR) ∧
    IMG_DEFAULT_AVATAR ≠ IMG_DEFAULT := by
  by_cases hcase : old_id = IMG_DEFAULT
  · have hnoop : replaceIDs old_id IMG_DEFAULT s = s := by
      rw [hcase]
      simp [replaceIDs]
    rw [hnoop]
    refine ⟨?_, ?_, fun x hx => Or.inl hx, by decide⟩
    · intro i o j hi _ _ hface
      exact ⟨o, hi, by rw [← hcase]; exact hface⟩
    · intro i o hi _ _ _ hsc
      exact ⟨o, hi, by rw [← hcase]; exact hsc⟩
  · have hobjs : (replaceIDs old_id IMG_DEFAULT s).objects =
        s.objects.map (fun o => updateUserSculptsObj old_id IMG_DEFAULT
          (updateUserPrimsObj old_id IMG_DEFAULT o).1) := by
      rw [replaceIDs_to_default_unfold old_id hcase s,
        (layerCalls_layerStep old_id IMG_DEFAULT_AVATAR
          replaceIDs_layerTypes _).1,
        updateUserSculpts_objects, updateUserPrims_objects, List.map_map]
      rfl
    refine ⟨?_, ?_, ?_, by decide⟩
    · intro i o j hi hnn hd hface
      refine ⟨updateUserSculptsObj old_id IMG_DEFAULT
        (updateUserPrimsObj old_id IMG_DEFAULT o).1, ?_, ?_⟩
      · rw [hobjs, List.getElem?_map, hi]
        rfl
      · rw [updateUserSculptsObj_preserves]
        exact updateUserPrimsObj_faces_hit old_id IMG_DEFAULT o j hnn hd hface
    · intro i o hi hnn hsc hvol hid
      refine ⟨updateUserSculptsObj old_id IMG_DEFAULT
        (updateUserPrimsObj old_id IMG_DEFAULT o).1, ?_, ?_⟩
      · rw [hobjs, List.getElem?_map, hi]
        rfl
      · obtain ⟨p1, p2, p3, p4⟩ :=
          updateUserPrimsObj_preserves old_id IMG_DEFAULT o
        exact updateUserSculptsObj_hit old_id IMG_DEFAULT _
          (p1.trans hnn) (p2.trans hsc) (p3.trans hvol) (p4.trans hid)
    · intro x hx
      have hwr : (replaceIDs old_id IMG_DEFAULT s).avatarWrites =
          (layerCalls old_id IMG_DEFAULT_AVATAR replaceIDs_layerTypes
            (updateUserSculpts old_id IMG_DEFAULT
              (updateUserPrims old_id IMG_DEFAULT s))).avatarWrites := by
        rw [replaceIDs_to_default_unfold old_id hcase s]
      rw [hwr] at hx
      have hmem := (layerCalls_layerStep old_id IMG_DEFAULT_AVATAR
        replaceIDs_layerTypes (updateUserSculpts old_id IMG_DEFAULT
          (updateUserPrims old_id IMG_DEFAULT s))).2.2.2.2.2.1 x hx
      rcases hmem with h | h
      · left
        rw [(updateUserSculpts_fields old_id IMG_DEFAULT _).1,
          (updateUserPrims_fields old_id IMG_DEFAULT s).1] at h
        exact h
      · exact Or.inr h

/-- A world state for the C7 witness: one face bound to texture 5, one
sculpted object referencing texture 5, one matching mapped clothing slot. -/
def c7World : WorldState :=
  { objects :=
      [{ notNull := true, hasDrawable := true, faces := [some 5],
         isSculpted := false, hasVolume := false, sculptID := 0 },
       { notNull := true, hasDrawable := false, faces := [],
         isSculpted := true, hasVolume := true, sculptID := 5 }],
    wearables :=
      [(.WT_SHIRT,
        [{ present := true, index := 0,
           ltos := [some { id := 5, bakedIndex := .BAKED_UPPER }] }])],
    avatarWrites := [], needsRebake := false, teUpdates := 0, bakeCount := 0 }

/-- C7 witness: the theorem instantiated in `c7World` with `old_id = 5`. -/
theorem replaceIDs_default_substitution_witness :
    (∃ o', (replaceIDs 5 IMG_DEFAULT c7World).objects[0]? = some o' ∧
      o'.faces[0]? = some (some IMG_DEFAULT)) ∧
    (∃ o', (replaceIDs 5 IMG_DEFAULT c7World).objects[1]? = some o' ∧
      o'.sculptID = IMG_DEFAULT) ∧
    IMG_DEFAULT_AVATAR ≠ IMG_DEFAULT :=
  ⟨(replaceIDs_default_substitution 5 c7World).1 0
      { notNull := true, hasDrawable := true, faces := [some 5],
        isSculpted := false, hasVolume := false, sculptID := 0 } 0
      rfl rfl rfl rfl,
    (replaceIDs_default_substitution 5 c7World).2.1 1
      { notNull := true, hasDrawable := false, faces := [],
        isSculpted := true, hasVolume := true, sculptID := 5 }
      rfl rfl rfl rfl rfl,
    (replaceIDs_default_substitution 5 c7World).2.2.2⟩

end LocalBitmaps
